import Mathlib

/-!
Shallow embedding of the `carbonara` energy-measurement engine
(`src/lib.rs`).

Modelling conventions:

* Rust `f64` values are modelled as exact rationals (`Rat`); the claims
  under study are about exact arithmetic identities, stated in the spec
  "within floating-point tolerance".
* A `uom` quantity (`Energy`, `Power`) is stored by the library as its
  value in the SI base unit (joule resp. watt); we model a quantity by
  that stored base-unit value.  `Energy::new::<joule>(x)` stores `x`,
  `Energy::new::<kilowatt_hour>(x)` stores `x * 3_600_000`, and
  `get::<kilowatt_hour>()` divides the stored value by `3_600_000`.
  Dividing a quantity by a scalar (`uom`'s `Div<f64>`) divides the
  stored value and keeps the dimension.
* Everything the engine reads from the outside world during one
  `measure` call (sysfs files, the wall clock) is passed explicitly as a
  `World` value: the outcome of each RAPL counter read, the power-supply
  directory listing, the outcome of each sampling tick of the ACPI
  sampler thread, and the observed elapsed wall-clock time in seconds.
* Fallible Rust code returning `Result<T, MeasurementError>` becomes
  `Except MeasurementError T`; the `?` operator becomes an explicit
  `match`.
-/

/-- Rust `str::starts_with(pre)`: `pre` is a prefix of the byte/char
sequence of `s`. -/
def starts_with (s pre : String) : Bool :=
  pre.toList.isPrefixOf s.toList

/-- The modulus `2 ^ 64` of Rust `u64` arithmetic. -/
def U64_MOD : Nat := 18446744073709551616

/-- Rust `u64` subtraction `a - b` in release mode: wrapping subtraction
modulo `2 ^ 64` (lib.rs line 422 computes `end_energy - start_energy`). -/
def u64_sub (a b : Nat) : Nat :=
  (a + (U64_MOD - b % U64_MOD)) % U64_MOD

/-- lib.rs 116-127: the power measurement methods. -/
inductive PowerSource where
  | Auto
  | Rapl
  | Acpi
  | TdpEstimate
deriving DecidableEq, Repr

/-- lib.rs 315-326: the measurement error taxonomy.  The `io::Error`
payload is modelled by its display string. -/
inductive MeasurementError where
  | IoError (msg : String)
  | RaplNotAvailable
  | AcpiNotAvailable
  | InvalidMeasurement (msg : String)
deriving DecidableEq, Repr

/-- The `uom::si::f64::Energy` quantity, modelled by its stored base-unit (joule)
value. -/
abbrev Energy := Rat

/-- The `uom::si::f64::Power` quantity, modelled by its stored base-unit (watt)
value. -/
abbrev Power := Rat

/-- Rust `Energy::new::<joule>(x)`: joule is the base unit, so the stored
value is `x`. -/
def Energy.newJoule (x : Rat) : Energy := x

/-- Rust `Energy::new::<kilowatt_hour>(x)`: the stored base-unit value is
`x * 3_600_000` joules. -/
def Energy.newKilowattHour (x : Rat) : Energy := x * 3600000

/-- Rust `e.get::<kilowatt_hour>()`: convert the stored joule value to
kilowatt-hours. -/
def Energy.getKilowattHour (e : Energy) : Rat := e / 3600000

/-- lib.rs 57-59: `kwh_to_co2e(kwh, co2e_per_kwh)` =
`kwh.get::<kilowatt_hour>() * co2e_per_kwh`. -/
def kwh_to_co2e (kwh : Energy) (co2e_per_kwh : Rat) : Rat :=
  kwh.getKilowattHour * co2e_per_kwh

/-- lib.rs 70-72: `joules_to_kwh(joules)` = `joules / 3_600_000.0`.
`uom`'s scalar division divides the stored value, keeping the
dimension. -/
def joules_to_kwh (joules : Energy) : Energy :=
  joules / 3600000

/-- lib.rs 83-85: `kwh_to_joules(kwh)` =
`Energy::new::<joule>(kwh.get::<kilowatt_hour>() * 3_600_000.0)`. -/
def kwh_to_joules (kwh : Energy) : Energy :=
  Energy.newJoule (kwh.getKilowattHour * 3600000)

/-- lib.rs 154-163: the measurement configuration.  `duration` is in
seconds. -/
structure MeasurementConfig where
  duration : Rat
  power_source : PowerSource
  sample_interval_ms : Nat
deriving DecidableEq, Repr

/-- lib.rs 165-178: the measurement result. -/
structure EnergyMeasurement where
  total_energy : Energy
  average_power : Power
  peak_power : Power
  duration : Rat
  measurement_method : PowerSource
deriving DecidableEq, Repr

/-- lib.rs 194-202: `EnergyMeasurement::co2e` applies `kwh_to_co2e` to
`joules_to_kwh(self.total_energy)`, defaulting the factor to 436.0. -/
def EnergyMeasurement.co2e (self : EnergyMeasurement)
    (co2e_per_kwh : Option Rat) : Rat :=
  kwh_to_co2e (joules_to_kwh self.total_energy) (co2e_per_kwh.getD 436)

/-- lib.rs 204-211: one per-device ACPI snapshot (micro-units). -/
structure AcpiPowerInfo where
  voltage_now : Rat
  current_now : Rat
  power_now : Option Rat
  energy_now : Option Rat
deriving DecidableEq, Repr

/-- The outside world as observed during one `measure` call.

* `rapl_available`: the RAPL `energy_uj` file exists and can be opened
  (lib.rs 342-349).
* `rapl_start_read`, `rapl_end_read`: the outcome of the first and the
  second `read_energy_counter` call (lib.rs 355-364); a successful parse
  yields a `u64`, so a value `< U64_MOD`.
* `acpi_path_exists`: `/sys/class/power_supply` exists (lib.rs 223).
* `acpi_read_dir`: `none` when `read_dir` fails (lib.rs 228); otherwise
  the names of the directory entries that are directories with valid
  UTF-8 names (the loop of lib.rs 231-245 skips the others).
* `acpi_ticks`: per tick of the sampler thread (lib.rs 462-469), the
  outcome of `read_power_info`: `none` for `Err` (the tick is skipped),
  `some info` for `Ok(info)`.
* `elapsed`: the wall-clock seconds reported by `start_time.elapsed()`
  at the end of the run (a Rust `Duration`, hence non-negative). -/
structure World where
  rapl_available : Bool
  rapl_start_read : Except MeasurementError Nat
  rapl_end_read : Except MeasurementError Nat
  acpi_path_exists : Bool
  acpi_read_dir : Option (List String)
  acpi_ticks : List (Option (List AcpiPowerInfo))
  elapsed : Rat

/-- lib.rs 333-336. -/
structure RaplMeasurement where
  package_path : String
deriving DecidableEq, Repr

/-- lib.rs 340-353: `RaplMeasurement::new` fails with
`RaplNotAvailable` when the counter file is missing or unopenable. -/
def RaplMeasurement.new (w : World) : Except MeasurementError RaplMeasurement :=
  if w.rapl_available then
    .ok { package_path := "/sys/class/powercap/intel-rapl/intel-rapl:0/energy_uj" }
  else
    .error .RaplNotAvailable

/-- lib.rs 213-217. -/
structure AcpiMeasurement where
  power_supply_path : String
  cached_power_supplies : List String
deriving DecidableEq, Repr

/-- lib.rs 220-255: `AcpiMeasurement::new`: fail when the registry path
is missing, when `read_dir` fails, or when no entry name starts with
`BAT` or `AC`; otherwise cache the matching names. -/
def AcpiMeasurement.new (w : World) : Except MeasurementError AcpiMeasurement :=
  if !w.acpi_path_exists then
    .error .AcpiNotAvailable
  else
    match w.acpi_read_dir with
    | none => .error .AcpiNotAvailable
    | some entries =>
      let power_supplies := entries.filter fun name_str =>
        starts_with name_str "BAT" || starts_with name_str "AC"
      if power_supplies.isEmpty then
        .error .AcpiNotAvailable
      else
        .ok { power_supply_path := "/sys/class/power_supply"
              cached_power_supplies := power_supplies }

/-- lib.rs 297-312: `AcpiMeasurement::calculate_power`: per device, use
`power_now` when present, else `voltage_now * current_now / 1_000_000`;
sum over devices and divide by `1_000_000` (μW to W). -/
def AcpiMeasurement.calculate_power (_self : AcpiMeasurement)
    (info : List AcpiPowerInfo) : Rat :=
  let total_power := info.foldl
    (fun total_power supply =>
      match supply.power_now with
      | some power => total_power + power
      | none => total_power + supply.voltage_now * supply.current_now / 1000000)
    0
  total_power / 1000000

/-- lib.rs 458-469: the sample sequence collected by the sampler thread:
one `calculate_power` value per successful `read_power_info` tick;
failed ticks are skipped silently (`if let Ok(info) = ...`). -/
def acpi_samples (acpi : AcpiMeasurement) (w : World) : List Rat :=
  (w.acpi_ticks.filterMap id).map acpi.calculate_power

/-- lib.rs 460-466: the running peak `local_peak`, starting at `0.0` and
updated with `max` at each collected sample. -/
def acpi_local_peak (acpi : AcpiMeasurement) (w : World) : Rat :=
  (acpi_samples acpi w).foldl max 0

/-- lib.rs 367-370. -/
structure BenchmarkExecutor where
  config : MeasurementConfig
deriving DecidableEq, Repr

/-- lib.rs 404-442: `measure_with_rapl`: construct the reader, read the
counter before and after the workload, convert the `u64` counter delta
from microjoules to joules, divide by the elapsed seconds for the
average power, and fold `f64::max` over the constant sample list
`[0.0]` for the peak power. -/
def BenchmarkExecutor.measure_with_rapl (_self : BenchmarkExecutor) (w : World) :
    Except MeasurementError EnergyMeasurement :=
  match RaplMeasurement.new w with
  | .error e => .error e
  | .ok _rapl =>
    match w.rapl_start_read with
    | .error e => .error e
    | .ok start_energy =>
      match w.rapl_end_read with
      | .error e => .error e
      | .ok end_energy =>
        let duration := w.elapsed
        let energy_joules : Rat := (u64_sub end_energy start_energy : Nat) / 1000000
        let average_power_watts := energy_joules / duration
        let total_energy : Energy := Energy.newJoule energy_joules
        let samples : List Rat := [0]
        let peak_power := samples.foldl max 0
        let average_power := average_power_watts
        .ok { duration := duration
              measurement_method := .Rapl
              total_energy := total_energy
              average_power := average_power
              peak_power := peak_power }

/-- lib.rs 444-505: `measure_with_acpi`: construct the reader, run the
sampler thread while the workload runs, then take the arithmetic mean
of the samples (0 when none), the running peak, and
`total_energy = average_power * duration`.  The join of the sampler
thread succeeds (the thread body cannot unwind), so the collected
samples are always used. -/
def BenchmarkExecutor.measure_with_acpi (_self : BenchmarkExecutor) (w : World) :
    Except MeasurementError EnergyMeasurement :=
  match AcpiMeasurement.new w with
  | .error e => .error e
  | .ok acpi =>
    let samples := acpi_samples acpi w
    let peak_power := acpi_local_peak acpi w
    let duration := w.elapsed
    let average_power :=
      if !samples.isEmpty then samples.sum / (samples.length : Rat) else 0
    let total_energy := Energy.newJoule (average_power * duration)
    .ok { total_energy := total_energy
          average_power := average_power
          peak_power := peak_power
          duration := duration
          measurement_method := .Acpi }

/-- lib.rs 507-533: `measure_with_tdp`: never fails; energy is the
hardcoded 28 W constant times the elapsed seconds, and both power
fields are the constant. -/
def BenchmarkExecutor.measure_with_tdp (_self : BenchmarkExecutor) (w : World) :
    Except MeasurementError EnergyMeasurement :=
  let duration := w.elapsed
  let estimated_tdp : Rat := 28
  let energy_joules := estimated_tdp * duration
  .ok { total_energy := Energy.newJoule energy_joules
        average_power := estimated_tdp
        peak_power := estimated_tdp
        duration := duration
        measurement_method := .TdpEstimate }

/-- lib.rs 379-402: `BenchmarkExecutor::measure`: dispatch on the
requested power source; for `Auto`, probe RAPL construction, then ACPI
construction, falling back to the TDP estimate. -/
def BenchmarkExecutor.measure (self : BenchmarkExecutor) (w : World) :
    Except MeasurementError EnergyMeasurement :=
  match self.config.power_source with
  | .Auto =>
    if (RaplMeasurement.new w).isOk then
      self.measure_with_rapl w
    else if (AcpiMeasurement.new w).isOk then
      self.measure_with_acpi w
    else
      self.measure_with_tdp w
  | .Rapl => self.measure_with_rapl w
  | .Acpi => self.measure_with_acpi w
  | .TdpEstimate => self.measure_with_tdp w

/-! Helper lemmas (shared). -/

/-- The initial accumulator is a lower bound of a left fold of `max`. -/
theorem foldl_max_init_le (l : List Rat) (a : Rat) : a ≤ l.foldl max a := by
  induction l generalizing a with
  | nil => exact le_refl a
  | cons x xs ih => exact le_trans (le_max_left a x) (ih (max a x))

/-- Every member of the list is a lower bound of a left fold of `max`. -/
theorem mem_le_foldl_max (l : List Rat) (a x : Rat) (hx : x ∈ l) :
    x ≤ l.foldl max a := by
  induction l generalizing a with
  | nil => cases hx
  | cons y ys ih =>
    rcases List.mem_cons.mp hx with h | h
    · subst h
      exact le_trans (le_max_right a x) (foldl_max_init_le ys (max a x))
    · exact ih (max a y) h

/-- The arithmetic mean of a list (0 when empty) is at most the left
fold of `max` started at 0. -/
theorem mean_le_foldl_max (l : List Rat) :
    (if !l.isEmpty then l.sum / (l.length : Rat) else 0) ≤ l.foldl max 0 := by
  cases l with
  | nil => simp
  | cons x xs =>
    simp only [List.isEmpty_cons, Bool.not_false, if_pos]
    set M := (x :: xs).foldl max 0 with hM
    have hlen : (0 : Rat) < ((x :: xs).length : Rat) := by
      exact_mod_cast Nat.succ_pos xs.length
    rw [div_le_iff₀ hlen]
    have hsum : (x :: xs).sum ≤ (x :: xs).length • M :=
      List.sum_le_card_nsmul _ _ (fun y hy => mem_le_foldl_max _ _ _ hy)
    calc (x :: xs).sum ≤ (x :: xs).length • M := hsum
      _ = ((x :: xs).length : Rat) * M := by rw [nsmul_eq_mul]
      _ = M * ((x :: xs).length : Rat) := mul_comm _ _

/-! Concrete executors and worlds used by witnesses. -/

/-- An executor requesting the TDP estimate. -/
def exec_tdp : BenchmarkExecutor :=
  ⟨{ duration := 1, power_source := .TdpEstimate, sample_interval_ms := 100 }⟩

/-- An executor requesting automatic source selection. -/
def exec_auto : BenchmarkExecutor :=
  ⟨{ duration := 1, power_source := .Auto, sample_interval_ms := 100 }⟩

/-- A world where neither RAPL nor ACPI is available; elapsed 3 s. -/
def w_none : World :=
  { rapl_available := false
    rapl_start_read := .error .RaplNotAvailable
    rapl_end_read := .error .RaplNotAvailable
    acpi_path_exists := false
    acpi_read_dir := none
    acpi_ticks := []
    elapsed := 3 }

/-- C1: with `power_source = Auto`, the engine uses the hardware counter
when its construction succeeds, else supply telemetry when its
construction succeeds, and otherwise always succeeds with the thermal
estimate: the result carries `measurement_method = TdpEstimate` and the
construction failures never surface. -/
theorem measure_auto_priority (self : BenchmarkExecutor) (w : World)
    (hauto : self.config.power_source = PowerSource.Auto) :
    ((RaplMeasurement.new w).isOk = true →
      self.measure w = self.measure_with_rapl w) ∧
    ((RaplMeasurement.new w).isOk = false → (AcpiMeasurement.new w).isOk = true →
      self.measure w = self.measure_with_acpi w) ∧
    ((RaplMeasurement.new w).isOk = false → (AcpiMeasurement.new w).isOk = false →
      ∃ m, self.measure w = .ok m ∧
        m.measurement_method = PowerSource.TdpEstimate) := by
  unfold BenchmarkExecutor.measure
  rw [hauto]
  refine ⟨fun h1 => by simp [h1], fun h1 h2 => by simp [h1, h2], fun h1 h2 => ?_⟩
  simp only [h1, h2, Bool.false_eq_true, if_false]
  exact ⟨_, rfl, rfl⟩

/-- C1 witness: with RAPL and ACPI both unavailable, an `Auto` measure
succeeds and reports the TDP estimate. -/
theorem measure_auto_priority_w :
    ∃ m, exec_auto.measure w_none = .ok m ∧
      m.measurement_method = PowerSource.TdpEstimate :=
  (measure_auto_priority exec_auto w_none rfl).2.2 rfl rfl

/-- C2: at `total_energy = 3_600_000 J` (one kWh) and the default factor
436, the code's `co2e` returns `436 / 3_600_000` grams, while converting
the energy to kilowatt-hours and multiplying by the factor gives 436
grams: `co2e` divides by 3_600_000 twice (`joules_to_kwh` divides the
stored quantity value and `kwh_to_co2e` converts to kWh again), so it
does not equal `kWh(e) * f`. -/
theorem co2e_double_conversion :
    ({ total_energy := Energy.newJoule 3600000, average_power := 1,
       peak_power := 1, duration := 1,
       measurement_method := PowerSource.TdpEstimate } :
        EnergyMeasurement).co2e none = 436 / 3600000 ∧
    Energy.getKilowattHour (Energy.newJoule 3600000) * 436 = 436 ∧
    ((436 : Rat) / 3600000) ≠ 436 := by
  refine ⟨?_, ?_, ?_⟩ <;>
    norm_num [EnergyMeasurement.co2e, kwh_to_co2e, joules_to_kwh,
      Energy.getKilowattHour, Energy.newJoule]

/-- C3: the round trip `joules_to_kwh (kwh_to_joules x)` is not the
identity: at `x = 3_600_000 J` it returns `1 J`.  `kwh_to_joules` is the
identity on the stored quantity value, while `joules_to_kwh` divides the
stored value by 3_600_000, so the composition shrinks every nonzero
energy by a factor of 3_600_000. -/
theorem joules_kwh_roundtrip_not_identity :
    joules_to_kwh (kwh_to_joules (Energy.newJoule 3600000)) = Energy.newJoule 1 ∧
    kwh_to_joules (Energy.newJoule 3600000) = Energy.newJoule 3600000 ∧
    Energy.newJoule 1 ≠ Energy.newJoule 3600000 := by
  refine ⟨?_, ?_, ?_⟩ <;>
    norm_num [joules_to_kwh, kwh_to_joules, Energy.getKilowattHour,
      Energy.newJoule]

/-- C6: a TDP-estimate measure never fails and returns exactly
`total_energy = 28 * elapsed` joules,
`average_power = peak_power = 28` W, with the elapsed wall time and
`measurement_method = TdpEstimate`. -/
theorem tdp_constant_measurement (self : BenchmarkExecutor) (w : World)
    (hsrc : self.config.power_source = PowerSource.TdpEstimate) :
    self.measure w =
      .ok { total_energy := 28 * w.elapsed, average_power := 28,
            peak_power := 28, duration := w.elapsed,
            measurement_method := .TdpEstimate } := by
  unfold BenchmarkExecutor.measure
  rw [hsrc]
  rfl

/-- C6 witness: a concrete TDP measure over 3 s yields 84 J at 28 W. -/
theorem tdp_constant_measurement_w :
    exec_tdp.measure w_none =
      .ok { total_energy := 84, average_power := 28, peak_power := 28,
            duration := 3, measurement_method := .TdpEstimate } := by
  have h := tdp_constant_measurement exec_tdp w_none rfl
  rw [h]
  norm_num [w_none]

/-- C10: every successful RAPL measurement reports `peak_power = 0`,
whatever the counter readings and the elapsed time: the code folds
`f64::max` over the constant sample list `[0.0]`. -/
theorem rapl_peak_power_zero (self : BenchmarkExecutor) (w : World)
    (m : EnergyMeasurement) (hm : self.measure_with_rapl w = .ok m) :
    m.peak_power = 0 := by
  unfold BenchmarkExecutor.measure_with_rapl at hm
  split at hm
  · exact absurd hm (by simp)
  · split at hm
    · exact absurd hm (by simp)
    · split at hm
      · exact absurd hm (by simp)
      · simp only [Except.ok.injEq] at hm
        subst hm
        simp

/-- A world where the RAPL counter is available and reads 1_000_000 μJ
then 3_500_000 μJ, with elapsed time 5/2 s. -/
def w_rapl : World :=
  { rapl_available := true
    rapl_start_read := .ok 1000000
    rapl_end_read := .ok 3500000
    acpi_path_exists := false
    acpi_read_dir := none
    acpi_ticks := []
    elapsed := 5/2 }

/-- C10 witness: a concrete successful RAPL measurement has
`peak_power = 0`. -/
theorem rapl_peak_power_zero_w :
    ∃ m, exec_auto.measure_with_rapl w_rapl = .ok m ∧ m.peak_power = 0 :=
  ⟨_, rfl, rapl_peak_power_zero exec_auto w_rapl _ rfl⟩

/-- Rust `u64` wrapping subtraction agrees with truncated subtraction
when the counter did not decrease and both values fit in a `u64`. -/
theorem u64_sub_of_le (a b : Nat) (hba : b ≤ a) (ha : a < U64_MOD) :
    u64_sub a b = a - b := by
  unfold u64_sub U64_MOD
  unfold U64_MOD at ha
  omega

/-- C5: a successful RAPL measurement reports
`total_energy = (end - start) / 1_000_000` joules (the `u64` counter
delta converted from microjoules) and
`average_power = total_energy / elapsed`. -/
theorem rapl_energy_from_counter_delta (self : BenchmarkExecutor) (w : World)
    (s e : Nat) (hav : w.rapl_available = true)
    (hs : w.rapl_start_read = .ok s) (he : w.rapl_end_read = .ok e)
    (hle : s ≤ e) (hlt : e < U64_MOD) :
    ∃ m, self.measure_with_rapl w = .ok m ∧
      m.total_energy = ((e - s : Nat) : Rat) / 1000000 ∧
      m.average_power = (((e - s : Nat) : Rat) / 1000000) / w.elapsed ∧
      m.measurement_method = PowerSource.Rapl := by
  unfold BenchmarkExecutor.measure_with_rapl RaplMeasurement.new
  rw [hav, hs, he]
  simp only [if_true]
  refine ⟨_, rfl, ?_, ?_, rfl⟩
  · simp [Energy.newJoule, u64_sub_of_le e s hle hlt]
  · simp [u64_sub_of_le e s hle hlt]

/-- C5 witness: counter readings 1_000_000 μJ then 3_500_000 μJ with
elapsed 5/2 s yield 5/2 J and 1 W. -/
theorem rapl_energy_from_counter_delta_w :
    ∃ m, exec_auto.measure_with_rapl w_rapl = .ok m ∧
      m.total_energy = 5/2 ∧ m.average_power = 1 := by
  obtain ⟨m, hm, ht, ha, -⟩ :=
    rapl_energy_from_counter_delta exec_auto w_rapl 1000000 3500000 rfl rfl rfl
      (by norm_num) (by norm_num [U64_MOD])
  refine ⟨m, hm, ?_, ?_⟩
  · rw [ht]; norm_num
  · rw [ha]; norm_num [w_rapl]

/-- C7: `AcpiMeasurement::new` fails with `AcpiNotAvailable` when the
power-supply registry path is missing or when no entry name starts with
`BAT` or `AC`; a successful construction never carries an empty device
list; and an entry matching neither prefix is ignored without changing
the outcome. -/
theorem acpi_new_requires_devices (w : World) :
    (w.acpi_path_exists = false →
      AcpiMeasurement.new w = .error .AcpiNotAvailable) ∧
    (∀ entries, w.acpi_read_dir = some entries →
      entries.filter (fun n => starts_with n "BAT" || starts_with n "AC") = [] →
      AcpiMeasurement.new w = .error .AcpiNotAvailable) ∧
    (∀ a, AcpiMeasurement.new w = .ok a → a.cached_power_supplies ≠ []) ∧
    (∀ entries name, w.acpi_read_dir = some entries →
      (starts_with name "BAT" || starts_with name "AC") = false →
      AcpiMeasurement.new { w with acpi_read_dir := some (name :: entries) } =
        AcpiMeasurement.new w) := by
  refine ⟨?_, ?_, ?_, ?_⟩
  · intro h
    unfold AcpiMeasurement.new
    rw [h]
    rfl
  · intro entries he hf
    unfold AcpiMeasurement.new
    by_cases hp : w.acpi_path_exists
    · rw [he]
      simp [hp, hf]
    · simp [hp]
  · intro a ha
    unfold AcpiMeasurement.new at ha
    simp only [] at ha
    split at ha
    · exact absurd ha (by simp)
    · split at ha
      · exact absurd ha (by simp)
      · split at ha
        · exact absurd ha (by simp)
        · rename_i hne
          simp only [Except.ok.injEq] at ha
          subst ha
          simpa using hne
  · intro entries name he hn
    unfold AcpiMeasurement.new
    rw [he]
    by_cases hp : w.acpi_path_exists
    · simp [hp, List.filter_cons, hn]
    · simp [hp]

/-- A world with an existing power-supply registry whose only entry
matches neither the battery nor the AC prefix. -/
def w_nodev : World :=
  { rapl_available := false
    rapl_start_read := .error .RaplNotAvailable
    rapl_end_read := .error .RaplNotAvailable
    acpi_path_exists := true
    acpi_read_dir := some ["hidraw0"]
    acpi_ticks := []
    elapsed := 1 }

/-- C7 witness: a registry holding only `hidraw0` yields the
telemetry-unavailable error. -/
theorem acpi_new_requires_devices_w :
    AcpiMeasurement.new w_nodev = .error .AcpiNotAvailable :=
  (acpi_new_requires_devices w_nodev).2.1 ["hidraw0"] rfl (by decide)

/-- C4: every successful supply-telemetry measurement reports as
`average_power` the arithmetic mean of the collected samples (0 when no
sample was taken), as `peak_power` the running maximum of the samples
(the `0.0`-seeded `max` fold), and
`total_energy = average_power * duration` over the elapsed wall time;
in particular the sample sequence `[10, 20, 15]` W gives
`average_power = 15`, `peak_power = 20` and
`total_energy = 15 * elapsed`. -/
theorem acpi_sample_statistics (self : BenchmarkExecutor) (w : World)
    (acpi : AcpiMeasurement) (hnew : AcpiMeasurement.new w = .ok acpi) :
    (∀ m, self.measure_with_acpi w = .ok m →
      m.average_power = (if !(acpi_samples acpi w).isEmpty then
          (acpi_samples acpi w).sum / ((acpi_samples acpi w).length : Rat)
        else 0) ∧
      m.peak_power = (acpi_samples acpi w).foldl max 0 ∧
      m.total_energy = m.average_power * m.duration ∧
      m.duration = w.elapsed) ∧
    (acpi_samples acpi w = [10, 20, 15] →
      ∃ m, self.measure_with_acpi w = .ok m ∧
        m.average_power = 15 ∧ m.peak_power = 20 ∧
        m.total_energy = 15 * w.elapsed) := by
  unfold BenchmarkExecutor.measure_with_acpi
  rw [hnew]
  constructor
  · intro m hm
    simp only [Except.ok.injEq] at hm
    subst hm
    exact ⟨rfl, rfl, by simp [Energy.newJoule], rfl⟩
  · intro hs
    refine ⟨_, rfl, ?_, ?_, ?_⟩
    · simp only [hs]
      norm_num
    · simp only [acpi_local_peak, hs]
      norm_num [max_def]
    · simp only [Energy.newJoule, hs]
      norm_num

/-- A world whose sampler thread collects the powers 10 W, 20 W and
15 W (reported directly via `power_now`, in μW) over a 2 s run. -/
def w_acpi : World :=
  { rapl_available := false
    rapl_start_read := .error .RaplNotAvailable
    rapl_end_read := .error .RaplNotAvailable
    acpi_path_exists := true
    acpi_read_dir := some ["BAT0"]
    acpi_ticks :=
      [ some [{ voltage_now := 0, current_now := 0,
                power_now := some 10000000, energy_now := none }]
      , some [{ voltage_now := 0, current_now := 0,
                power_now := some 20000000, energy_now := none }]
      , some [{ voltage_now := 0, current_now := 0,
                power_now := some 15000000, energy_now := none }] ]
    elapsed := 2 }

/-- The reader cached from `w_acpi`'s registry. -/
def acpi_bat0 : AcpiMeasurement :=
  { power_supply_path := "/sys/class/power_supply"
    cached_power_supplies := ["BAT0"] }

/-- C4 witness: the concrete run with samples `[10, 20, 15]` W over 2 s
yields mean 15 W, peak 20 W and 30 J. -/
theorem acpi_sample_statistics_w :
    ∃ m, exec_auto.measure_with_acpi w_acpi = .ok m ∧
      m.average_power = 15 ∧ m.peak_power = 20 ∧ m.total_energy = 30 := by
  have hs : acpi_samples acpi_bat0 w_acpi = [10, 20, 15] := by
    simp only [acpi_samples, w_acpi, List.filterMap_cons, id, List.filterMap_nil,
      List.map_cons, List.map_nil, AcpiMeasurement.calculate_power,
      List.foldl_cons, List.foldl_nil]
    norm_num
  obtain ⟨m, hm, ha, hp, ht⟩ :=
    (acpi_sample_statistics exec_auto w_acpi acpi_bat0 rfl).2 hs
  exact ⟨m, hm, ha, hp, by rw [ht]; norm_num [w_acpi]⟩

/-- C9: every successful supply-telemetry measurement reports
`average_power ≤ peak_power`. -/
theorem acpi_peak_ge_average (self : BenchmarkExecutor) (w : World)
    (m : EnergyMeasurement) (hm : self.measure_with_acpi w = .ok m) :
    m.average_power ≤ m.peak_power := by
  unfold BenchmarkExecutor.measure_with_acpi at hm
  split at hm
  · exact absurd hm (by simp)
  · rename_i acpi hnew
    simp only [Except.ok.injEq] at hm
    subst hm
    exact mean_le_foldl_max (acpi_samples acpi w)

/-- C9 witness: in the concrete run with samples `[10, 20, 15]` W the
mean 15 W is at most the peak 20 W. -/
theorem acpi_peak_ge_average_w :
    ∃ m, exec_auto.measure_with_acpi w_acpi = .ok m ∧
      m.average_power ≤ m.peak_power :=
  ⟨_, rfl, acpi_peak_ge_average exec_auto w_acpi _ rfl⟩

/-- An executor requesting the supply-telemetry (ACPI) strategy. -/
def exec_acpi : BenchmarkExecutor :=
  ⟨{ duration := 2, power_source := .Acpi, sample_interval_ms := 100 }⟩

/-- A world whose single battery reports `power_now = -5_000_000` μW
(-5 W) on the one collected tick, over a 2 s run. -/
def w_negpower : World :=
  { rapl_available := false
    rapl_start_read := .error .RaplNotAvailable
    rapl_end_read := .error .RaplNotAvailable
    acpi_path_exists := true
    acpi_read_dir := some ["BAT0"]
    acpi_ticks :=
      [ some [{ voltage_now := 0, current_now := 0,
                power_now := some (-5000000), energy_now := none }] ]
    elapsed := 2 }

/-- C8 counterexample: a successful measure whose `total_energy` is
negative: with the single telemetry sample -5 W over 2 s the ACPI
strategy returns `total_energy = -10` joules, so a successful
measurement's total energy is not always non-negative. -/
theorem measure_negative_total_energy :
    ∃ m, exec_acpi.measure w_negpower = .ok m ∧ m.total_energy < 0 := by
  refine ⟨_, rfl, ?_⟩
  simp only [Energy.newJoule, acpi_samples, acpi_local_peak, w_negpower,
    List.filterMap_cons, id, List.filterMap_nil, List.map_cons, List.map_nil,
    AcpiMeasurement.calculate_power, List.foldl_cons, List.foldl_nil]
  norm_num

/-- A successful RAPL measurement has non-negative total energy: the
`u64` counter delta is a natural number. -/
theorem rapl_total_energy_nonneg (self : BenchmarkExecutor) (w : World)
    (m : EnergyMeasurement) (hm : self.measure_with_rapl w = .ok m) :
    0 ≤ m.total_energy := by
  unfold BenchmarkExecutor.measure_with_rapl at hm
  split at hm
  · exact absurd hm (by simp)
  · split at hm
    · exact absurd hm (by simp)
    · split at hm
      · exact absurd hm (by simp)
      · simp only [Except.ok.injEq] at hm
        subst hm
        simp only [Energy.newJoule]
        positivity

/-- A successful ACPI measurement has non-negative total energy
provided the collected samples and the elapsed time are
non-negative. -/
theorem acpi_total_energy_nonneg (self : BenchmarkExecutor) (w : World)
    (m : EnergyMeasurement) (hd : 0 ≤ w.elapsed)
    (hsamp : ∀ acpi p, p ∈ acpi_samples acpi w → 0 ≤ p)
    (hm : self.measure_with_acpi w = .ok m) :
    0 ≤ m.total_energy := by
  unfold BenchmarkExecutor.measure_with_acpi at hm
  split at hm
  · exact absurd hm (by simp)
  · rename_i acpi hnew
    simp only [Except.ok.injEq] at hm
    subst hm
    have havg : 0 ≤ (if !(acpi_samples acpi w).isEmpty then
        (acpi_samples acpi w).sum / ((acpi_samples acpi w).length : Rat)
      else 0) := by
      split
      · apply div_nonneg
        · exact List.sum_nonneg (fun p hp => hsamp acpi p hp)
        · positivity
      · exact le_refl 0
    simpa only [Energy.newJoule] using mul_nonneg havg hd

/-- A successful TDP measurement has non-negative total energy when the
elapsed time is non-negative. -/
theorem tdp_total_energy_nonneg (self : BenchmarkExecutor) (w : World)
    (m : EnergyMeasurement) (hd : 0 ≤ w.elapsed)
    (hm : self.measure_with_tdp w = .ok m) :
    0 ≤ m.total_energy := by
  unfold BenchmarkExecutor.measure_with_tdp at hm
  simp only [Except.ok.injEq] at hm
  subst hm
  simpa only [Energy.newJoule] using mul_nonneg (by norm_num : (0:Rat) ≤ 28) hd

/-- C8 (amended): every successful `measure` call returns a
non-negative `total_energy`, provided every power sample collected by
the supply-telemetry sampler is non-negative (the elapsed wall time of
a run is non-negative by the type of Rust's `Duration`).  Without that
proviso the ACPI strategy can return a negative total energy. -/
theorem measure_total_energy_nonneg (self : BenchmarkExecutor) (w : World)
    (m : EnergyMeasurement) (hd : 0 ≤ w.elapsed)
    (hsamp : ∀ acpi p, p ∈ acpi_samples acpi w → 0 ≤ p)
    (hm : self.measure w = .ok m) :
    0 ≤ m.total_energy := by
  unfold BenchmarkExecutor.measure at hm
  split at hm
  · split at hm
    · exact rapl_total_energy_nonneg self w m hm
    · split at hm
      · exact acpi_total_energy_nonneg self w m hd hsamp hm
      · exact tdp_total_energy_nonneg self w m hd hm
  · exact rapl_total_energy_nonneg self w m hm
  · exact acpi_total_energy_nonneg self w m hd hsamp hm
  · exact tdp_total_energy_nonneg self w m hd hm

/-- C8 witness: a concrete successful measure with non-negative
samples has non-negative total energy. -/
theorem measure_total_energy_nonneg_w :
    ∃ m, exec_tdp.measure w_none = .ok m ∧ 0 ≤ m.total_energy := by
  have hm : exec_tdp.measure w_none =
      .ok { total_energy := Energy.newJoule (28 * (3 : Rat)),
            average_power := 28, peak_power := 28, duration := 3,
            measurement_method := .TdpEstimate } := rfl
  exact ⟨_, hm, measure_total_energy_nonneg exec_tdp w_none _
    (by norm_num [w_none]) (by simp [acpi_samples, w_none]) hm⟩
